import Mathlib

/-!
Shallow embedding of the elmenov utility library: the `Optional` container
(the variant with `flatMap`, `or`, `orElseGet` and the overloaded
`orElseThrow`) and the two parallel nominal-typing guards `BrandStructure`
and `StrictType`, together with theorems checking the specification's
claims about them.

Modelling conventions:
* A TypeScript value of type `T` is a Lean value of a type `α`; a nullable
  position (`Nullable<T>`: the value may be `null` or `undefined`, which
  `isNil` does not distinguish) is `Option α`, with `none` as the absence
  marker.
* Raising an exception is `Except.error`; each exception class of the
  library is a constructor of `Exc` carrying its message string.
* A caller-supplied callback that may itself be `null`/`undefined` is
  wrapped in an outer `Option` (so `none` is a nil callback and `some f` a
  real one).
* Where a claim speaks about a callback being or not being invoked, the
  embedding of that method also returns the number of times the callback
  was applied, read off the straight-line source.
-/

namespace Elmenov

/-- The source's `isNil` (is-nil.util): `value == null`, true for both
`null` and `undefined`, which the model collapses into `none`. -/
def isNil {α : Type} (value : Option α) : Bool :=
  value.isNone

/-- The exception classes of the library that the modelled methods raise,
each carrying its message. `Exception`/`RuntimeException` subclassing is
flattened into one sum, as only the class (kind) and message of a raised
error are observable in the claims. -/
inductive Exc where
  | nilArgument (message : String)
  | noSuchElement (message : String)
  | runtime (message : String)
  | assertion (message : String)
deriving DecidableEq

/-- `new NilArgumentException()` with its default message. -/
def nilArgumentException : Exc :=
  Exc.nilArgument "Passed null or undefined"

/-- `new NoSuchElementException()` with its default message. -/
def noSuchElementException : Exc :=
  Exc.noSuchElement "Element being requested does not exist"

/-- An error surfaced by `orElseThrow`: either one of the library's own
exceptions, or an arbitrary error `e : ε` raised by the caller-supplied
exception supplier and propagated unchanged. -/
inductive Thrown (ε : Type) where
  | exc (e : Exc)
  | user (e : ε)
deriving DecidableEq

/-- The `Optional` class: a single slot `#value : Nullable<T>`. -/
structure Optional (α : Type) where
  value : Option α
deriving DecidableEq

namespace Optional

variable {α β γ ε : Type}

/-- `Optional.empty()`: `new Optional<T>(null)`. -/
def empty : Optional α :=
  Optional.mk none

/-- `Optional.of(value)`: throws `NilArgumentException` when the value is
nil, otherwise wraps it. -/
def of (value : Option α) : Except Exc (Optional α) :=
  if isNil value then
    Except.error nilArgumentException
  else
    Except.ok (Optional.mk value)

/-- `Optional.ofNullable(value)`: `empty()` for a nil value, otherwise a
present container; never throws (the return type carries no error case,
as the source body has no `throw`). -/
def ofNullable (value : Option α) : Optional α :=
  if isNil value then
    empty
  else
    Optional.mk value

/-- `get()`: throws `NoSuchElementException` when the slot is nil,
otherwise returns the held value. -/
def get (o : Optional α) : Except Exc α :=
  match o.value with
  | none => Except.error noSuchElementException
  | some v => Except.ok v

/-- The `isPresent` accessor: `!isNil(this.#value)`. -/
def isPresent (o : Optional α) : Bool :=
  !(isNil o.value)

/-- `ifPresentOrElse(action, emptyAction)`. The two consumers are modelled
with a result type `γ` so that the value the executed callback produces is
observable; a nil callback is the outer `none`. The source checks only the
callback of the branch it is about to execute: `action` when the value is
present, `emptyAction` (applied to the nil slot) when it is absent. -/
def ifPresentOrElse (o : Optional α) (action : Option (α → γ))
    (emptyAction : Option (Option α → γ)) : Except Exc γ :=
  match o.value with
  | some v =>
    match action with
    | none => Except.error nilArgumentException
    | some a => Except.ok (a v)
  | none =>
    match emptyAction with
    | none => Except.error nilArgumentException
    | some ea => Except.ok (ea none)

/-- `map(mapper)`: nil mapper throws `NilArgumentException`; when present,
the mapper's (possibly nil) result is rewrapped through `ofNullable`; when
absent, `empty()` without touching the mapper. -/
def map (o : Optional α) (mapper : Option (α → Option β)) :
    Except Exc (Optional β) :=
  match mapper with
  | none => Except.error nilArgumentException
  | some m =>
    match o.value with
    | some v => Except.ok (ofNullable (m v))
    | none => Except.ok empty

/-- `flatMap(mapper)`: nil mapper throws; when present the mapper is
invoked once and its result returned directly unless that result is itself
nil, which is normalised to `empty()`; when absent, `empty()` without an
invocation. The second component counts the mapper's invocations. -/
def flatMap (o : Optional α) (mapper : Option (α → Option (Optional β))) :
    Except Exc (Optional β) × Nat :=
  match mapper with
  | none => (Except.error nilArgumentException, 0)
  | some m =>
    match o.value with
    | some v =>
      match m v with
      | some result => (Except.ok result, 1)
      | none => (Except.ok empty, 1)
    | none => (Except.ok empty, 0)

/-- `or(supplier)`: the supplier (whose single potential invocation is
modelled by the inner `Option (Optional α)` it would return, nil included)
is nil-checked before anything else; then
`result = isPresent ? this : supplier()` is nil-checked in turn. -/
def or (o : Optional α) (supplier : Option (Option (Optional α))) :
    Except Exc (Optional α) :=
  match supplier with
  | none => Except.error nilArgumentException
  | some s =>
    let result : Option (Optional α) := if o.isPresent then some o else s
    match result with
    | none => Except.error nilArgumentException
    | some r => Except.ok r

/-- `orElse(other)`: `isPresent ? this.#value : other`, with no check on
`other`. -/
def orElse (o : Optional α) (other : Option α) : Option α :=
  if o.isPresent then o.value else other

/-- `orElseGet(supplier)`: throws `NilArgumentException` only when absent
AND the supplier is nil; otherwise `isPresent ? this.#value : supplier()`.
The supplier's potential invocation result is the inner `Option α`
(`Option.getD none` unwraps it on the branch the guard has already proved
non-nil). -/
def orElseGet (o : Optional α) (supplier : Option (Option α)) :
    Except Exc (Option α) :=
  if !o.isPresent && isNil supplier then
    Except.error nilArgumentException
  else
    Except.ok (if o.isPresent then o.value else supplier.getD none)

/-- `orElseThrow(exceptionSupplier?)`. The supplier's single potential
invocation is `run : Except ε Unit`: `Except.error e` models a supplier
that raises `e`, `Except.ok ()` one that returns normally. The source's
`try`/`catch`/`finally` dance reads: if the supplier raises, the raised
error is rethrown unchanged (the `finally` guard sees the flag set); if it
returns normally, the `finally` block throws
`RuntimeException("Supplier is not throwable")`. With a nil supplier the
absent case falls through to `NoSuchElementException`; a present value is
returned without any invocation. The second component counts the
supplier's invocations. -/
def orElseThrowWith (o : Optional α) (exceptionSupplier : Option (Except ε Unit)) :
    Except (Thrown ε) α × Nat :=
  match o.value with
  | none =>
    match exceptionSupplier with
    | some run =>
      match run with
      | Except.error e => (Except.error (Thrown.user e), 1)
      | Except.ok _ => (Except.error (Thrown.exc (Exc.runtime "Supplier is not throwable")), 1)
    | none => (Except.error (Thrown.exc noSuchElementException), 0)
  | some v => (Except.ok v, 0)

end Optional

/-- The result of a `BrandValidator`/`StrictValidator`: `boolean | string`. -/
inductive ValidatorResult where
  | bool (b : Bool)
  | str (s : String)
deriving DecidableEq

namespace BrandStructure

variable {α : Type}

/-- `BrandStructure.is(value)`: `this.#validator(value) === true` (strict
equality, so any string result counts as not-true). -/
def is (validator : α → ValidatorResult) (value : α) : Bool :=
  match validator value with
  | ValidatorResult.bool true => true
  | _ => false

/-- `BrandStructure.assert(value)`: a string result is thrown as
`AssertionException(result)`; a `false` result as
``AssertionException(`Invalid value ${value}`)``, where `display` models
the template-literal rendering of the value. -/
def assert (validator : α → ValidatorResult) (display : α → String) (value : α) :
    Except Exc Unit :=
  match validator value with
  | ValidatorResult.str s => Except.error (Exc.assertion s)
  | ValidatorResult.bool false => Except.error (Exc.assertion ("Invalid value " ++ display value))
  | ValidatorResult.bool true => Except.ok ()

/-- `BrandStructure.identity(value)`: `this.assert(value); return value`. -/
def identity (validator : α → ValidatorResult) (display : α → String) (value : α) :
    Except Exc α :=
  match assert validator display value with
  | Except.error e => Except.error e
  | Except.ok _ => Except.ok value

end BrandStructure

namespace StrictType

variable {α : Type}

/-- `StrictType.is(value)`: `this.#validator(value) === true`. -/
def is (validator : α → ValidatorResult) (value : α) : Bool :=
  match validator value with
  | ValidatorResult.bool true => true
  | _ => false

/-- `StrictType.assert(value)`: a string result is thrown as
`AssertionException(result)`; a `false` result as
``AssertionException(`Invalid value ${value}`)``. -/
def assert (validator : α → ValidatorResult) (display : α → String) (value : α) :
    Except Exc Unit :=
  match validator value with
  | ValidatorResult.str s => Except.error (Exc.assertion s)
  | ValidatorResult.bool false => Except.error (Exc.assertion ("Invalid value " ++ display value))
  | ValidatorResult.bool true => Except.ok ()

/-- `StrictType.identity(value)`: `this.assert(value); return value`. -/
def identity (validator : α → ValidatorResult) (display : α → String) (value : α) :
    Except Exc α :=
  match assert validator display value with
  | Except.error e => Except.error e
  | Except.ok _ => Except.ok value

end StrictType

/-- The validator of the repository's own test scenario:
`x => x >= 0 || 'Value must not be negative'`. -/
def vNonNegative : Int → ValidatorResult :=
  fun x => if 0 ≤ x then ValidatorResult.bool true else ValidatorResult.str "Value must not be negative"

/-- C7: `Optional.of(value)` raises `NilArgumentException` exactly when the
value is the absence marker and otherwise returns a present container
holding the value; `Optional.ofNullable(value)` never raises (its embedding
is a total function with no error case), giving an empty container exactly
when the value is nil and a present container holding it otherwise. -/
theorem of_ofNullable_contract {α : Type} (value : Option α) :
    (Optional.of value = Except.error nilArgumentException ↔ value = none)
  ∧ (value.isSome = true ↔ Optional.of value = Except.ok (Optional.mk value))
  ∧ Optional.ofNullable value = Optional.mk value
  ∧ ((Optional.ofNullable value).isPresent = true ↔ value.isSome = true) := by
  cases value <;>
    simp [Optional.of, Optional.ofNullable, Optional.empty, Optional.isPresent, isNil]

/-- C9: `orElse(other)` returns the held value when present and the
fallback verbatim when absent, with no nil check on the fallback; in
particular `Optional.empty().orElse(null) === null`. -/
theorem orElse_contract {α : Type} (v : α) (other : Option α) :
    Optional.orElse (Optional.mk (some v)) other = some v
  ∧ Optional.orElse (Optional.mk (none : Option α)) other = other
  ∧ Optional.orElse (Optional.empty : Optional α) none = none := by
  refine ⟨rfl, rfl, rfl⟩

/-- C10: `get()` and the zero-argument `orElseThrow()` (a nil
`exceptionSupplier`) are extensionally equivalent: on every container they
return the held value when present and raise `NoSuchElementException` when
absent; the supplier is never invoked (count 0 is part of the left-hand
pair, discarded by `.fst`). -/
theorem get_orElseThrow_equiv {α : Type} (o : Optional α) :
    (Optional.orElseThrowWith o (none : Option (Except Unit Unit))).fst
        = Except.mapError Thrown.exc (Optional.get o)
  ∧ (Optional.orElseThrowWith o (none : Option (Except Unit Unit))).snd = 0
  ∧ Optional.get (Optional.empty : Optional α) = Except.error noSuchElementException := by
  obtain ⟨val⟩ := o
  cases val <;>
    simp [Optional.orElseThrowWith, Optional.get, Optional.empty, Except.mapError]

/-- C5: on an absent container with a non-nil exception supplier,
`orElseThrow(exceptionSupplier)` surfaces an error raised by the supplier
unchanged (not wrapped), and raises
`RuntimeException("Supplier is not throwable")` when the supplier returns
normally; on a present container it returns the held value with the
supplier never invoked (invocation count 0). -/
theorem orElseThrow_supplier_contract {α ε : Type} (v : α) (e : ε) :
    Optional.orElseThrowWith (Optional.mk (none : Option α)) (some (Except.error e))
        = (Except.error (Thrown.user e), 1)
  ∧ Optional.orElseThrowWith (Optional.mk (none : Option α)) (some (Except.ok () : Except ε Unit))
        = (Except.error (Thrown.exc (Exc.runtime "Supplier is not throwable")), 1)
  ∧ (∀ s : Option (Except ε Unit),
        Optional.orElseThrowWith (Optional.mk (some v)) s = (Except.ok v, 0)) := by
  exact ⟨rfl, rfl, fun s => rfl⟩

/-- C1 counterexample: a present container with a non-nil `action` and a
nil `emptyAction`. The claim says `ifPresentOrElse` validates both
callbacks before branching and must raise `NilArgumentException` here; the
source validates only the executed branch's callback, so the call returns
normally with the action's result. -/
theorem ifPresentOrElse_eager_validation_cex :
    Optional.ifPresentOrElse (Optional.mk (some 0)) (some (fun _ : Nat => true)) none
      = Except.ok true := by
  exact rfl

/-- C1 (amended): `ifPresentOrElse(action, emptyAction)` validates only the
callback of the branch it executes: with a value present it raises
`NilArgumentException` exactly when `action` is nil (whatever
`emptyAction` is) and otherwise invokes `action` on the held value; with no
value present it raises exactly when `emptyAction` is nil (whatever
`action` is) and otherwise invokes `emptyAction` on the nil slot. -/
theorem ifPresentOrElse_validates_executed_branch_only {α γ : Type}
    (v : α) (a : α → γ) (ea : Option α → γ)
    (actionOther : Option (α → γ)) (emptyOther : Option (Option α → γ)) :
    Optional.ifPresentOrElse (Optional.mk (some v)) (some a) emptyOther = Except.ok (a v)
  ∧ Optional.ifPresentOrElse (Optional.mk (none : Option α)) actionOther (some ea)
      = Except.ok (ea none)
  ∧ Optional.ifPresentOrElse (Optional.mk (some v)) none emptyOther
      = Except.error nilArgumentException
  ∧ Optional.ifPresentOrElse (Optional.mk (none : Option α)) actionOther none
      = Except.error nilArgumentException := by
  exact ⟨rfl, rfl, rfl, rfl⟩

/-- C2 counterexample: a present container with a nil supplier. The claim
says `orElseGet` validates its supplier eagerly and must raise
`NilArgumentException` even though the value is present; the source guards
the check with `!this.isPresent`, so the call returns the held value. -/
theorem orElseGet_eager_validation_cex :
    Optional.orElseGet (Optional.mk (some 0)) (none : Option (Option Nat))
      = Except.ok (some 0) := by
  exact rfl

/-- C2 (amended): of the two methods only `or` validates its supplier
eagerly: on a present container `or` raises `NilArgumentException` for a
nil supplier, while `orElseGet` returns the held value for any supplier,
nil included, and raises `NilArgumentException` only when the container is
absent and the supplier is nil. -/
theorem or_eager_orElseGet_lazy_validation {α : Type} (v : α) (s : Option (Option α)) :
    Optional.or (Optional.mk (some v)) none = Except.error nilArgumentException
  ∧ Optional.orElseGet (Optional.mk (some v)) s = Except.ok (some v)
  ∧ Optional.orElseGet (Optional.mk (none : Option α)) none
      = Except.error nilArgumentException := by
  refine ⟨rfl, ?_, rfl⟩
  simp [Optional.orElseGet, Optional.isPresent, isNil]

/-- C3 counterexample: a present container, `f = _ => null` and
`g = _ => 1` (a mapper whose domain is the nullable intermediate type, as
in the chained call). The left-hand side `opt.map(f).map(g)` is empty
because `map` rewraps the nil result of `f` through `ofNullable`, while the
right-hand side `opt.map(x => g(f(x)))` is a present container holding 1,
because the composed mapper feeds the nil straight into `g`; the claim says
the two sides are structurally equal. -/
theorem map_composition_cex :
    Except.bind
        (Optional.map (Optional.mk (some 0)) (some (fun _ : Nat => (none : Option Nat))))
        (fun r => Optional.map r
          (some (fun b : Nat => (fun _ : Option Nat => (some 1 : Option Nat)) (some b))))
      = Except.ok (Optional.mk (none : Option Nat))
  ∧ Optional.map (Optional.mk (some 0))
        (some (fun a : Nat =>
          (fun _ : Option Nat => (some 1 : Option Nat)) ((fun _ : Nat => (none : Option Nat)) a)))
      = Except.ok (Optional.mk (some 1))
  ∧ Optional.mk (none : Option Nat) ≠ Optional.mk (some 1) := by
  refine ⟨rfl, rfl, by decide⟩

/-- C3 (amended): the `map` composition law `opt.map(f).map(g)` =
`opt.map(x => g(f(x)))` holds for a present container whenever the first
mapper's result on the held value is non-absent (the law fails when `f`
yields the absence marker, since the chained side collapses to empty while
the composed side hands the nil to `g`); `g` is a mapper on the nullable
intermediate type, applied to the held value of the first `map`'s result on
the chained side and to `f`'s raw result on the composed side. -/
theorem map_composition_of_present {α β γ : Type}
    (v : α) (f : α → Option β) (g : Option β → Option γ)
    (h : (f v).isSome = true) :
    Except.bind (Optional.map (Optional.mk (some v)) (some f))
        (fun r => Optional.map r (some (fun b : β => g (some b))))
      = Optional.map (Optional.mk (some v)) (some (fun a : α => g (f a))) := by
  obtain ⟨w, hw⟩ := Option.isSome_iff_exists.mp h
  simp [Optional.map, Optional.ofNullable, Optional.empty, isNil, hw, Except.bind]
  cases hg : g (some w) <;> simp [hg, hw]

/-- C3 witness: the amended composition law applied at the held value 0,
`f = n => n + 1` (non-absent result) and `g` the identity mapper. -/
theorem map_composition_of_present_witness :
    Except.bind (Optional.map (Optional.mk (some 0)) (some (fun n : Nat => some (n + 1))))
        (fun r => Optional.map r (some (fun b : Nat => id (some b))))
      = Optional.map (Optional.mk (some 0)) (some (fun a : Nat => id ((fun n : Nat => some (n + 1)) a))) :=
  map_composition_of_present 0 (fun n : Nat => some (n + 1)) id rfl

/-- C8: `flatMap(mapper)` with a present receiver and non-nil mapper
returns the mapper's result directly with no double-wrapping (one
invocation), so a mapper returning `Optional.of(y)` makes
`opt.flatMap(m).get()` yield `y`; a nil mapper result is normalised to
`empty()`; an absent receiver gives `empty()` with the mapper never
invoked (count 0). -/
theorem flatMap_contract {α β : Type} (v : α) (m : α → Option (Optional β)) :
    (∀ r : Optional β, m v = some r →
        Optional.flatMap (Optional.mk (some v)) (some m) = (Except.ok r, 1))
  ∧ (m v = none →
        Optional.flatMap (Optional.mk (some v)) (some m) = (Except.ok Optional.empty, 1))
  ∧ (∀ y : β, m v = some (Optional.mk (some y)) →
        Except.bind (Optional.flatMap (Optional.mk (some v)) (some m)).fst Optional.get
          = Except.ok y)
  ∧ Optional.flatMap (Optional.mk (none : Option α)) (some m)
      = (Except.ok Optional.empty, 0) := by
  refine ⟨fun r hr => ?_, fun hn => ?_, fun y hy => ?_, rfl⟩
  · simp [Optional.flatMap, hr]
  · simp [Optional.flatMap, hn]
  · simp [Optional.flatMap, hy, Optional.get, Except.bind]

/-- C8 witness: the contract at held value 0 and a mapper returning
`Optional.of(7)`; the result is that very container and `get()` yields 7. -/
theorem flatMap_contract_witness :
    Optional.flatMap (Optional.mk (some 0)) (some (fun _ : Nat => some (Optional.mk (some 7))))
        = (Except.ok (Optional.mk (some 7)), 1)
  ∧ Except.bind
        (Optional.flatMap (Optional.mk (some 0))
          (some (fun _ : Nat => some (Optional.mk (some 7))))).fst Optional.get
      = Except.ok 7 := by
  have H := flatMap_contract 0 (fun _ : Nat => some (Optional.mk (some (7 : Nat))))
  exact ⟨H.1 (Optional.mk (some 7)) rfl, H.2.2.1 7 rfl⟩

/-- C4: for every validator (returning `boolean | string`), display
function and base value, and for both parallel guard implementations:
`is(v)` is true exactly when the validator yields boolean `true`, and
exactly then `assert(v)` returns without raising and `identity(v)` returns
the very value `v`; a string result `r` makes `assert`/`identity` raise
`AssertionException` with message `r`; a boolean `false` result makes them
raise `AssertionException` with the synthesized message
`"Invalid value " ++ display v`. -/
theorem guard_validation_contract {α : Type}
    (validator : α → ValidatorResult) (display : α → String) (v : α) :
    (BrandStructure.is validator v = true ↔ validator v = ValidatorResult.bool true)
  ∧ (BrandStructure.is validator v = true ↔ BrandStructure.assert validator display v = Except.ok ())
  ∧ (BrandStructure.is validator v = true ↔ BrandStructure.identity validator display v = Except.ok v)
  ∧ (∀ r : String, validator v = ValidatorResult.str r →
        BrandStructure.assert validator display v = Except.error (Exc.assertion r)
      ∧ BrandStructure.identity validator display v = Except.error (Exc.assertion r))
  ∧ (validator v = ValidatorResult.bool false →
        BrandStructure.assert validator display v
            = Except.error (Exc.assertion ("Invalid value " ++ display v))
      ∧ BrandStructure.identity validator display v
            = Except.error (Exc.assertion ("Invalid value " ++ display v)))
  ∧ (StrictType.is validator v = true ↔ validator v = ValidatorResult.bool true)
  ∧ (StrictType.is validator v = true ↔ StrictType.assert validator display v = Except.ok ())
  ∧ (StrictType.is validator v = true ↔ StrictType.identity validator display v = Except.ok v)
  ∧ (∀ r : String, validator v = ValidatorResult.str r →
        StrictType.assert validator display v = Except.error (Exc.assertion r)
      ∧ StrictType.identity validator display v = Except.error (Exc.assertion r))
  ∧ (validator v = ValidatorResult.bool false →
        StrictType.assert validator display v
            = Except.error (Exc.assertion ("Invalid value " ++ display v))
      ∧ StrictType.identity validator display v
            = Except.error (Exc.assertion ("Invalid value " ++ display v))) := by
  cases hres : validator v with
  | bool b =>
    cases b <;>
      simp [BrandStructure.is, BrandStructure.assert, BrandStructure.identity,
        StrictType.is, StrictType.assert, StrictType.identity, hres]
  | str s =>
    simp [BrandStructure.is, BrandStructure.assert, BrandStructure.identity,
      StrictType.is, StrictType.assert, StrictType.identity, hres]

/-- C4 witness: the contract at the repository's own test scenario,
`x => x >= 0 || 'Value must not be negative'` with value display
`toString`: `assert(-1)` raises `AssertionException` with the validator's
reason text and `identity(0)` returns 0. -/
theorem guard_validation_contract_witness :
    BrandStructure.assert vNonNegative (fun x => toString x) (-1)
        = Except.error (Exc.assertion "Value must not be negative")
  ∧ StrictType.identity vNonNegative (fun x => toString x) 0 = Except.ok 0 := by
  have H := guard_validation_contract vNonNegative (fun x => toString x) (-1)
  have H0 := guard_validation_contract vNonNegative (fun x => toString x) 0
  exact ⟨(H.2.2.2.1 "Value must not be negative" (by decide)).1,
    (H0.2.2.2.2.2.2.2.1).mp (by decide)⟩

/-- C6 counterexample: the two `assert` implementations raise the same
failure kind, not distinct ones. At the `Int` instantiation the two
embedded functions are one and the same function, and at the concrete
rejecting input (the non-negativity validator and value −1) both raise
`AssertionException` with the identical message — the claim says the
branded variant raises a general-purpose kind distinct from the strict
variant's assertion-specific kind. -/
theorem brand_strict_assert_same_kind_cex :
    (BrandStructure.assert :
        (Int → ValidatorResult) → (Int → String) → Int → Except Exc Unit)
      = StrictType.assert
  ∧ BrandStructure.assert vNonNegative (fun x => toString x) (-1)
      = Except.error (Exc.assertion "Value must not be negative")
  ∧ StrictType.assert vNonNegative (fun x => toString x) (-1)
      = Except.error (Exc.assertion "Value must not be negative") := by
  refine ⟨rfl, rfl, rfl⟩

/-- C6 (amended): the two parallel nominal-typing implementations signal
the SAME failure kind when rejecting a value: for every validator, display
and input, `BrandStructure.assert` and `StrictType.assert` (and likewise
`is` and `identity`) produce identical results, and every rejection is an
`AssertionException` in both. (The brand tests expect a general-purpose
`RuntimeException` from the branded variant, which the code contradicts.) -/
theorem brand_strict_assert_agree {α : Type}
    (validator : α → ValidatorResult) (display : α → String) (v : α) :
    BrandStructure.assert validator display v = StrictType.assert validator display v
  ∧ BrandStructure.is validator v = StrictType.is validator v
  ∧ BrandStructure.identity validator display v = StrictType.identity validator display v := by
  exact ⟨rfl, rfl, rfl⟩

end Elmenov
